import Mathlib

/-!
Verification of the console example browser in `src/main.py` of the
python-solid-principles repository.

The program is embedded shallowly: the file system becomes an association
list from path to text contents, each `print` call becomes one emitted
string chunk, and the `while True` loop of `main` becomes a recursive
function over the list of input lines.  Python exceptions (IndexError from
`split('-')[1]`, FileNotFoundError from `open`) are modelled as explicit
error values that abort the current call and, since `main` installs no
handler, the whole run.
-/

namespace SolidDemo

/-- Python whitespace characters stripped by `str.strip()`. -/
def pyIsSpace (c : Char) : Bool :=
  c = ' ' || c = '\t' || c = '\n' || c = '\x0d' || c = '\x0b' || c = '\x0c'

/-- Python `str.strip()`: remove leading and trailing whitespace. -/
def pyStrip (s : String) : String :=
  String.mk (((s.data.dropWhile pyIsSpace).reverse.dropWhile pyIsSpace).reverse)

/-- Python `str.lower()` on the ASCII identifiers used here. -/
def pyLower (s : String) : String :=
  String.mk (s.data.map Char.toLower)

/-- Helper for `pySplit`: walk the characters, cutting at each separator. -/
def pySplitAux (sep : Char) : List Char → List Char → List String
  | [], acc => [String.mk acc.reverse]
  | c :: cs, acc =>
    if c = sep then String.mk acc.reverse :: pySplitAux sep cs []
    else pySplitAux sep cs (c :: acc)

/-- Python `str.split(sep)` with an explicit one-character separator. -/
def pySplit (s : String) (sep : Char) : List String :=
  pySplitAux sep s.data []

/-- POSIX `os.path.join` on two components, as called in `main.py`. -/
def osPathJoin (a b : String) : String :=
  if b.data.head? = some '/' then b
  else if a.data = [] ∨ a.data.getLast? = some '/' then a ++ b
  else a ++ "/" ++ b

/-- A file system: an association list from path to text contents. -/
def FS : Type := List (String × String)

/-- Look a path up in the file system; `none` models FileNotFoundError. -/
def FS.read (fs : FS) (p : String) : Option String :=
  (List.find? (fun kv => kv.1 == p) fs).map (fun kv => kv.2)

/-- The eight lines printed by `display_menu` in `src/main.py`. -/
def display_menu : List String :=
  [ "Welcome to the SOLID Principles Interactive Demo!"
  , "Please choose a principle to explore:"
  , "1. Single Responsibility Principle (SRP)"
  , "2. Open/Closed Principle (OCP)"
  , "3. Liskov Substitution Principle (LSP)"
  , "4. Interface Segregation Principle (ISP)"
  , "5. Dependency Inversion Principle (DIP)"
  , "6. Exit" ]

/-- The exceptions `load_example` can raise. -/
inductive LoadError where
  | indexError : LoadError
  | fileNotFound : String → LoadError
deriving DecidableEq, Repr

/-- Outcome of one `load_example` call: the chunks printed, the paths on
which `open` was attempted, and the exception if one was raised. -/
structure LoadResult where
  out : List String
  opened : List String
  err : Option LoadError
deriving DecidableEq, Repr

/-- Function `load_example(principle)` from `src/main.py`, lines 13-26. -/
def load_example (fs : FS) (principle : String) : LoadResult :=
  let principle_path := principle
  match (pySplit principle '-').get? 1 with
  | none => ⟨[], [], some .indexError⟩
  | some short =>
    let bad_example := osPathJoin principle_path ("bad_" ++ pyLower short ++ ".py")
    let good_example := osPathJoin principle_path ("good_" ++ pyLower short ++ ".py")
    match fs.read bad_example with
    | none => ⟨["\n--- Bad Example ---"], [bad_example],
               some (.fileNotFound bad_example)⟩
    | some c1 =>
      match fs.read good_example with
      | none => ⟨["\n--- Bad Example ---", c1, "\n--- Good Example ---"],
                 [bad_example, good_example], some (.fileNotFound good_example)⟩
      | some c2 => ⟨["\n--- Bad Example ---", c1, "\n--- Good Example ---", c2],
                    [bad_example, good_example], none⟩

/-- Control state after one iteration of the `while True` loop. -/
inductive Status where
  | running : Status
  | terminated : Status
  | crashed : LoadError → Status
deriving DecidableEq, Repr

/-- Outcome of one loop iteration of `main`. -/
structure StepResult where
  out : List String
  opened : List String
  status : Status
deriving DecidableEq, Repr

/-- The prompt emitted by `input("Enter your choice: ")`. -/
def promptText : String := "Enter your choice: "

/-- Wrap a `load_example` outcome into a loop-iteration outcome: an
uncaught exception leaves the loop as a crash. -/
def afterLoad (pre : List String) (r : LoadResult) : StepResult :=
  ⟨pre ++ r.out, r.opened,
   match r.err with
   | none => .running
   | some e => .crashed e⟩

/-- The `if choice == ... elif ...` chain of `main` (lines 33-47), applied
to the already-stripped choice; the menu and prompt have been printed. -/
def dispatch (fs : FS) (choice : String) : StepResult :=
  let pre := display_menu ++ [promptText]
  if choice = "1" then afterLoad pre (load_example fs "1-srp")
  else if choice = "2" then afterLoad pre (load_example fs "2-ocp")
  else if choice = "3" then afterLoad pre (load_example fs "3-lsp")
  else if choice = "4" then afterLoad pre (load_example fs "4-isp")
  else if choice = "5" then afterLoad pre (load_example fs "5-dip")
  else if choice = "6" then ⟨pre ++ ["Goodbye!"], [], .terminated⟩
  else ⟨pre ++ ["Invalid choice, please try again."], [], .running⟩

/-- One iteration of the `while True` loop of `main` (lines 29-47): show
the menu, prompt, strip the input line, dispatch on the choice. -/
def mainStep (fs : FS) (line : String) : StepResult :=
  dispatch fs (pyStrip line)

/-- How a whole run of `main` ends. -/
inductive RunStatus where
  | terminated : RunStatus
  | crashed : LoadError → RunStatus
  | outOfInput : RunStatus
deriving DecidableEq, Repr

/-- Run `main` on a list of input lines, collecting all printed chunks:
`break` on choice 6 stops the loop, an uncaught exception aborts the run,
and exhausting the input ends it (Python would raise EOFError there). -/
def mainRun (fs : FS) : List String → List String × RunStatus
  | [] => ([], .outOfInput)
  | line :: rest =>
    let r := mainStep fs line
    match r.status with
    | .running => ((r.out ++ (mainRun fs rest).1), (mainRun fs rest).2)
    | .terminated => (r.out, .terminated)
    | .crashed e => (r.out, .crashed e)

/-- The five principle identifiers `main` passes to `load_example`,
in menu order. -/
def principleIds : List String :=
  ["1-srp", "2-ocp", "3-lsp", "4-isp", "5-dip"]

/-- A sample file system holding all ten example files of the repository
layout, with placeholder contents. -/
def fullFS : FS :=
  [ ("1-srp/bad_srp.py", "BAD SRP"), ("1-srp/good_srp.py", "GOOD SRP")
  , ("2-ocp/bad_ocp.py", "BAD OCP"), ("2-ocp/good_ocp.py", "GOOD OCP")
  , ("3-lsp/bad_lsp.py", "BAD LSP"), ("3-lsp/good_lsp.py", "GOOD LSP")
  , ("4-isp/bad_isp.py", "BAD ISP"), ("4-isp/good_isp.py", "GOOD ISP")
  , ("5-dip/bad_dip.py", "BAD DIP"), ("5-dip/good_dip.py", "GOOD DIP") ]

/-- A deficient file system: the bad SRP example exists but the good one
is missing. -/
def noGoodFS : FS := [("1-srp/bad_srp.py", "BAD SRP")]

/-- Menu choice, principle identifier, bad-example path, good-example path:
the repository layout served by `main`, one row per menu option. -/
def exampleTable : List (String × String × String × String) :=
  [ ("1", "1-srp", "1-srp/bad_srp.py", "1-srp/good_srp.py")
  , ("2", "2-ocp", "2-ocp/bad_ocp.py", "2-ocp/good_ocp.py")
  , ("3", "3-lsp", "3-lsp/bad_lsp.py", "3-lsp/good_lsp.py")
  , ("4", "4-isp", "4-isp/bad_isp.py", "4-isp/good_isp.py")
  , ("5", "5-dip", "5-dip/bad_dip.py", "5-dip/good_dip.py") ]

/-- When the identifier splits and both files are present, `load_example`
prints header, bad contents, header, good contents, and raises nothing. -/
lemma load_example_ok (fs : FS) (p short b g : String)
    (hs : (pySplit p '-').get? 1 = some short)
    (hb : fs.read (osPathJoin p ("bad_" ++ pyLower short ++ ".py")) = some b)
    (hg : fs.read (osPathJoin p ("good_" ++ pyLower short ++ ".py")) = some g) :
    load_example fs p =
      ⟨["\n--- Bad Example ---", b, "\n--- Good Example ---", g],
       [osPathJoin p ("bad_" ++ pyLower short ++ ".py"),
        osPathJoin p ("good_" ++ pyLower short ++ ".py")], none⟩ := by
  unfold load_example
  rw [hs]
  simp only
  rw [hb, hg]

/-- When the bad file is readable but the good file is missing, the bad
half has already been printed when the exception is raised. -/
lemma load_example_fail_good (fs : FS) (p short b : String)
    (hs : (pySplit p '-').get? 1 = some short)
    (hb : fs.read (osPathJoin p ("bad_" ++ pyLower short ++ ".py")) = some b)
    (hg : fs.read (osPathJoin p ("good_" ++ pyLower short ++ ".py")) = none) :
    load_example fs p =
      ⟨["\n--- Bad Example ---", b, "\n--- Good Example ---"],
       [osPathJoin p ("bad_" ++ pyLower short ++ ".py"),
        osPathJoin p ("good_" ++ pyLower short ++ ".py")],
       some (.fileNotFound (osPathJoin p ("good_" ++ pyLower short ++ ".py")))⟩ := by
  unfold load_example
  rw [hs]
  simp only
  rw [hb, hg]

/-- Whatever the file system holds, `load_example` only ever attempts to
open the two conventional paths. -/
lemma load_example_opened_sub (fs : FS) (p short : String)
    (hs : (pySplit p '-').get? 1 = some short) :
    (load_example fs p).opened ⊆
      [osPathJoin p ("bad_" ++ pyLower short ++ ".py"),
       osPathJoin p ("good_" ++ pyLower short ++ ".py")] := by
  unfold load_example
  rw [hs]
  simp only
  cases fs.read (osPathJoin p ("bad_" ++ pyLower short ++ ".py")) with
  | none => simp
  | some c1 =>
    cases fs.read (osPathJoin p ("good_" ++ pyLower short ++ ".py")) with
    | none => simp
    | some c2 => simp

/-- If the identifier splits, the IndexError branch is never taken. -/
lemma load_example_err_ne_index (fs : FS) (p short : String)
    (hs : (pySplit p '-').get? 1 = some short) :
    (load_example fs p).err ≠ some .indexError := by
  unfold load_example
  rw [hs]
  simp only
  cases fs.read (osPathJoin p ("bad_" ++ pyLower short ++ ".py")) with
  | none => simp
  | some c1 =>
    cases fs.read (osPathJoin p ("good_" ++ pyLower short ++ ".py")) with
    | none => simp
    | some c2 => simp

/-- For each table row, the loop iteration on that menu choice is exactly
a `load_example` call on the matching identifier, after menu and prompt. -/
lemma mainStep_dispatch (fs : FS) (c p bad good : String)
    (h : (c, p, bad, good) ∈ exampleTable) :
    mainStep fs c = afterLoad (display_menu ++ [promptText]) (load_example fs p) := by
  fin_cases h <;> rfl

/-- The loop iteration on choice 6 prints the farewell and leaves the loop. -/
lemma mainStep_six (fs : FS) :
    mainStep fs "6" =
      ⟨display_menu ++ [promptText] ++ ["Goodbye!"], [], .terminated⟩ := rfl

/-- The loop iteration on an unrecognized choice prints the invalid-choice
message, opens nothing, and keeps running. -/
lemma mainStep_invalid (fs : FS) (line : String)
    (h : pyStrip line ∉ ["1", "2", "3", "4", "5", "6"]) :
    mainStep fs line =
      ⟨display_menu ++ [promptText] ++ ["Invalid choice, please try again."],
       [], .running⟩ := by
  unfold mainStep dispatch
  simp only [List.mem_cons, not_or] at h
  obtain ⟨h1, h2, h3, h4, h5, h6, -⟩ := h
  simp [h1, h2, h3, h4, h5, h6]

/-- The iteration status is a crash exactly when `load_example` raised. -/
lemma afterLoad_status_crashed_iff (pre : List String) (r : LoadResult)
    (e : LoadError) :
    (afterLoad pre r).status = Status.crashed e ↔ r.err = some e := by
  show (match r.err with
        | none => Status.running
        | some e2 => Status.crashed e2) = Status.crashed e ↔ r.err = some e
  cases r.err with
  | none => simp
  | some e2 => simp

/-- When `load_example` raised nothing, the iteration keeps running. -/
lemma afterLoad_status_of_err_none (pre : List String) (r : LoadResult)
    (h : r.err = none) : (afterLoad pre r).status = Status.running := by
  show (match r.err with
        | none => Status.running
        | some e2 => Status.crashed e2) = Status.running
  rw [h]

/-- When `load_example` raised, the iteration crashes with that error. -/
lemma afterLoad_status_of_err_some (pre : List String) (r : LoadResult)
    (e : LoadError) (h : r.err = some e) :
    (afterLoad pre r).status = Status.crashed e := by
  show (match r.err with
        | none => Status.running
        | some e2 => Status.crashed e2) = Status.crashed e
  rw [h]

/-- A running iteration contributes its output and the loop continues. -/
lemma mainRun_cons_running (fs : FS) (line : String) (rest : List String)
    (h : (mainStep fs line).status = .running) :
    mainRun fs (line :: rest) =
      ((mainStep fs line).out ++ (mainRun fs rest).1, (mainRun fs rest).2) := by
  conv_lhs => rw [mainRun]
  simp only [h]

/-- A crashing iteration ends the whole run; later input is never read. -/
lemma mainRun_cons_crashed (fs : FS) (line : String) (rest : List String)
    (e : LoadError) (h : (mainStep fs line).status = .crashed e) :
    mainRun fs (line :: rest) = ((mainStep fs line).out, .crashed e) := by
  conv_lhs => rw [mainRun]
  simp only [h]

/-- A terminating iteration (`break`) ends the run; later input is never
read and no further menu is shown. -/
lemma mainRun_cons_terminated (fs : FS) (line : String) (rest : List String)
    (h : (mainStep fs line).status = .terminated) :
    mainRun fs (line :: rest) = ((mainStep fs line).out, .terminated) := by
  conv_lhs => rw [mainRun]
  simp only [h]

/-- When `load_example` succeeds, its sequence of attempted opens is
exactly the bad path then the good path. -/
lemma load_example_opened_of_ok (fs : FS) (p short : String)
    (hs : (pySplit p '-').get? 1 = some short)
    (he : (load_example fs p).err = none) :
    (load_example fs p).opened =
      [osPathJoin p ("bad_" ++ pyLower short ++ ".py"),
       osPathJoin p ("good_" ++ pyLower short ++ ".py")] := by
  unfold load_example at he ⊢
  rw [hs] at he ⊢
  simp only at he ⊢
  cases hb : fs.read (osPathJoin p ("bad_" ++ pyLower short ++ ".py")) with
  | none => rw [hb] at he; exact Option.noConfusion he
  | some c1 =>
    rw [hb] at he
    cases hg : fs.read (osPathJoin p ("good_" ++ pyLower short ++ ".py")) with
    | none => rw [hg] at he
    | some c2 => rfl

/-- Claim C1: for every recognized input in 1..5, when both example files
of the selected principle exist and are readable, the iteration prints the
full text of both files, the bad example before the good example, each
preceded by its fixed section header, and the loop keeps running. -/
theorem C1_prints_bad_then_good (fs : FS) (c p bad good b g : String)
    (h : (c, p, bad, good) ∈ exampleTable)
    (hb : fs.read bad = some b) (hg : fs.read good = some g) :
    mainStep fs c =
      ⟨display_menu ++ [promptText] ++
        ["\n--- Bad Example ---", b, "\n--- Good Example ---", g],
       [bad, good], .running⟩ := by
  fin_cases h
  · rw [mainStep_dispatch fs "1" "1-srp" "1-srp/bad_srp.py" "1-srp/good_srp.py" (by decide),
        load_example_ok fs "1-srp" "srp" b g (by decide) hb hg]
    rfl
  · rw [mainStep_dispatch fs "2" "2-ocp" "2-ocp/bad_ocp.py" "2-ocp/good_ocp.py" (by decide),
        load_example_ok fs "2-ocp" "ocp" b g (by decide) hb hg]
    rfl
  · rw [mainStep_dispatch fs "3" "3-lsp" "3-lsp/bad_lsp.py" "3-lsp/good_lsp.py" (by decide),
        load_example_ok fs "3-lsp" "lsp" b g (by decide) hb hg]
    rfl
  · rw [mainStep_dispatch fs "4" "4-isp" "4-isp/bad_isp.py" "4-isp/good_isp.py" (by decide),
        load_example_ok fs "4-isp" "isp" b g (by decide) hb hg]
    rfl
  · rw [mainStep_dispatch fs "5" "5-dip" "5-dip/bad_dip.py" "5-dip/good_dip.py" (by decide),
        load_example_ok fs "5-dip" "dip" b g (by decide) hb hg]
    rfl

/-- Witness for C1 at choice 1 on the sample file system. -/
theorem C1_prints_bad_then_good_witness :
    mainStep fullFS "1" =
      ⟨display_menu ++ [promptText] ++
        ["\n--- Bad Example ---", "BAD SRP", "\n--- Good Example ---", "GOOD SRP"],
       ["1-srp/bad_srp.py", "1-srp/good_srp.py"], .running⟩ :=
  C1_prints_bad_then_good fullFS "1" "1-srp" "1-srp/bad_srp.py" "1-srp/good_srp.py"
    "BAD SRP" "GOOD SRP" (by decide) (by decide) (by decide)

/-- Claim C2 as stated is false at a concrete input: with the good SRP
file missing and input lines 1 then 6, the run crashes on the missing
file; it never returns to the menu, never reaches the exit branch, and
the menu is shown exactly once. -/
theorem C2_counterexample :
    (mainRun noGoodFS ["1", "6"]).2 =
      .crashed (.fileNotFound "1-srp/good_srp.py") ∧
    (mainRun noGoodFS ["1", "6"]).2 ≠ .terminated ∧
    "Goodbye!" ∉ (mainRun noGoodFS ["1", "6"]).1 ∧
    ((mainRun noGoodFS ["1", "6"]).1.count
      "Welcome to the SOLID Principles Interactive Demo!") = 1 := by decide

/-- Claim C2 amended: a missing or unreadable example file makes the
current `load_example` call raise FileNotFound, and since `main` installs
no handler the exception propagates and terminates the whole process: the
loop does not continue and later input lines are never read. -/
theorem C2_error_crashes_run (fs : FS) (c p bad good : String)
    (rest : List String) (e : LoadError)
    (h : (c, p, bad, good) ∈ exampleTable)
    (he : (load_example fs p).err = some e) :
    mainRun fs (c :: rest) =
      ((display_menu ++ [promptText]) ++ (load_example fs p).out,
       .crashed e) := by
  have hd := mainStep_dispatch fs c p bad good h
  have hst : (mainStep fs c).status = .crashed e := by
    rw [hd]; exact afterLoad_status_of_err_some _ _ _ he
  rw [mainRun_cons_crashed fs c rest e hst, hd]
  rfl

/-- Witness for the amended C2 on the deficient sample file system. -/
theorem C2_error_crashes_run_witness :
    mainRun noGoodFS ["1", "6"] =
      ((display_menu ++ [promptText]) ++ (load_example noGoodFS "1-srp").out,
       .crashed (.fileNotFound "1-srp/good_srp.py")) :=
  C2_error_crashes_run noGoodFS "1" "1-srp" "1-srp/bad_srp.py" "1-srp/good_srp.py"
    ["6"] (.fileNotFound "1-srp/good_srp.py") (by decide) (by decide)

/-- Claim C3: on input 6 the loop prints the farewell and terminates:
later input lines are never read, no menu or prompt is shown again, no
file is opened, and the run ends in normal termination (the Python
process returns from `main` and exits with success), which is the only
distinguished way this path ends. -/
theorem C3_exit_terminates (fs : FS) (rest : List String) :
    mainRun fs ("6" :: rest) =
      (display_menu ++ [promptText] ++ ["Goodbye!"], .terminated) ∧
    (mainStep fs "6").opened = [] := by
  have h6 := mainStep_six fs
  have hst : (mainStep fs "6").status = .terminated := by rw [h6]
  constructor
  · rw [mainRun_cons_terminated fs "6" rest hst, h6]
  · rw [h6]

/-- Claim C4: each principle identifier resolves to exactly the two paths
of the naming convention (identifier, separator-suffix lower-cased), for
example 3-lsp to 3-lsp/bad_lsp.py and 3-lsp/good_lsp.py; `load_example`
attempts to open no path outside this pair, and on success it opens
exactly this pair in order. -/
theorem C4_path_convention (fs : FS) (c p bad good : String)
    (h : (c, p, bad, good) ∈ exampleTable) :
    bad = p ++ "/bad_" ++ pyLower ((pySplit p '-').getD 1 "") ++ ".py" ∧
    good = p ++ "/good_" ++ pyLower ((pySplit p '-').getD 1 "") ++ ".py" ∧
    (load_example fs p).opened ⊆ [bad, good] ∧
    ((load_example fs p).err = none → (load_example fs p).opened = [bad, good]) := by
  fin_cases h
  · exact ⟨by decide, by decide, load_example_opened_sub fs "1-srp" "srp" (by decide),
      fun he => load_example_opened_of_ok fs "1-srp" "srp" (by decide) he⟩
  · exact ⟨by decide, by decide, load_example_opened_sub fs "2-ocp" "ocp" (by decide),
      fun he => load_example_opened_of_ok fs "2-ocp" "ocp" (by decide) he⟩
  · exact ⟨by decide, by decide, load_example_opened_sub fs "3-lsp" "lsp" (by decide),
      fun he => load_example_opened_of_ok fs "3-lsp" "lsp" (by decide) he⟩
  · exact ⟨by decide, by decide, load_example_opened_sub fs "4-isp" "isp" (by decide),
      fun he => load_example_opened_of_ok fs "4-isp" "isp" (by decide) he⟩
  · exact ⟨by decide, by decide, load_example_opened_sub fs "5-dip" "dip" (by decide),
      fun he => load_example_opened_of_ok fs "5-dip" "dip" (by decide) he⟩

/-- Witness for C4 at the identifier 3-lsp named by the claim. -/
theorem C4_path_convention_witness :
    "3-lsp/bad_lsp.py" =
      "3-lsp" ++ "/bad_" ++ pyLower ((pySplit "3-lsp" '-').getD 1 "") ++ ".py" ∧
    "3-lsp/good_lsp.py" =
      "3-lsp" ++ "/good_" ++ pyLower ((pySplit "3-lsp" '-').getD 1 "") ++ ".py" ∧
    (load_example fullFS "3-lsp").opened ⊆ ["3-lsp/bad_lsp.py", "3-lsp/good_lsp.py"] ∧
    ((load_example fullFS "3-lsp").err = none →
      (load_example fullFS "3-lsp").opened = ["3-lsp/bad_lsp.py", "3-lsp/good_lsp.py"]) :=
  C4_path_convention fullFS "3" "3-lsp" "3-lsp/bad_lsp.py" "3-lsp/good_lsp.py" (by decide)

/-- Claim C5: on an input whose stripped choice is outside 1..6, the
iteration prints the invalid-choice message, attempts no file open, keeps
running, and the run then continues with the next input line (which again
starts by re-displaying the menu and prompting). -/
theorem C5_invalid_choice (fs : FS) (line : String) (rest : List String)
    (h : pyStrip line ∉ ["1", "2", "3", "4", "5", "6"]) :
    mainStep fs line =
      ⟨display_menu ++ [promptText] ++ ["Invalid choice, please try again."],
       [], .running⟩ ∧
    mainRun fs (line :: rest) =
      ((display_menu ++ [promptText] ++ ["Invalid choice, please try again."]) ++
        (mainRun fs rest).1, (mainRun fs rest).2) := by
  have hi := mainStep_invalid fs line h
  have hst : (mainStep fs line).status = .running := by rw [hi]
  refine ⟨hi, ?_⟩
  rw [mainRun_cons_running fs line rest hst, hi]

/-- Witness for C5 at the input 9 on the sample file system. -/
theorem C5_invalid_choice_witness :
    mainStep fullFS "9" =
      ⟨display_menu ++ [promptText] ++ ["Invalid choice, please try again."],
       [], .running⟩ ∧
    mainRun fullFS ["9", "6"] =
      ((display_menu ++ [promptText] ++ ["Invalid choice, please try again."]) ++
        (mainRun fullFS ["6"]).1, (mainRun fullFS ["6"]).2) :=
  C5_invalid_choice fullFS "9" ["6"] (by decide)

/-- Claim C6: on a file system holding every example file, each loop
iteration reaches the terminated state exactly on the stripped choice 6;
every other input leaves the loop in the running state, and no third
(crashed) state is reachable. -/
theorem C6_two_state_machine (fs : FS) (line : String)
    (hcomplete : ∀ p ∈ principleIds, (load_example fs p).err = none) :
    ((mainStep fs line).status = .terminated ↔ pyStrip line = "6") ∧
    (pyStrip line ≠ "6" → (mainStep fs line).status = .running) := by
  have hms : mainStep fs line = dispatch fs (pyStrip line) := rfl
  by_cases h1 : pyStrip line = "1"
  · have hrun : (mainStep fs line).status = Status.running := by
      rw [hms, h1]
      exact afterLoad_status_of_err_none _ _ (hcomplete "1-srp" (by decide))
    rw [hrun, h1]
    exact ⟨iff_of_false (by decide) (by decide), fun _ => rfl⟩
  by_cases h2 : pyStrip line = "2"
  · have hrun : (mainStep fs line).status = Status.running := by
      rw [hms, h2]
      exact afterLoad_status_of_err_none _ _ (hcomplete "2-ocp" (by decide))
    rw [hrun, h2]
    exact ⟨iff_of_false (by decide) (by decide), fun _ => rfl⟩
  by_cases h3 : pyStrip line = "3"
  · have hrun : (mainStep fs line).status = Status.running := by
      rw [hms, h3]
      exact afterLoad_status_of_err_none _ _ (hcomplete "3-lsp" (by decide))
    rw [hrun, h3]
    exact ⟨iff_of_false (by decide) (by decide), fun _ => rfl⟩
  by_cases h4 : pyStrip line = "4"
  · have hrun : (mainStep fs line).status = Status.running := by
      rw [hms, h4]
      exact afterLoad_status_of_err_none _ _ (hcomplete "4-isp" (by decide))
    rw [hrun, h4]
    exact ⟨iff_of_false (by decide) (by decide), fun _ => rfl⟩
  by_cases h5 : pyStrip line = "5"
  · have hrun : (mainStep fs line).status = Status.running := by
      rw [hms, h5]
      exact afterLoad_status_of_err_none _ _ (hcomplete "5-dip" (by decide))
    rw [hrun, h5]
    exact ⟨iff_of_false (by decide) (by decide), fun _ => rfl⟩
  by_cases h6 : pyStrip line = "6"
  · have hterm : (mainStep fs line).status = Status.terminated := by
      rw [hms, h6]; rfl
    rw [hterm, h6]
    exact ⟨iff_of_true rfl rfl, fun hh => absurd rfl hh⟩
  · have hi := mainStep_invalid fs line (by simp [h1, h2, h3, h4, h5, h6])
    have hrun : (mainStep fs line).status = Status.running := by rw [hi]
    rw [hrun]
    exact ⟨iff_of_false (by decide) h6, fun _ => rfl⟩

/-- Witness for C6 at the choice 3 on the sample file system. -/
theorem C6_two_state_machine_witness :
    (((mainStep fullFS "3").status = .terminated ↔ pyStrip "3" = "6") ∧
     (pyStrip "3" ≠ "6" → (mainStep fullFS "3").status = .running)) :=
  C6_two_state_machine fullFS "3" (by decide)

/-- Claim C7: repeating the same valid selection twice in one session
contributes the identical output chunk both times: the loop carries no
state between iterations, so the run on that input is the iteration
output appended to itself before the rest of the session. -/
theorem C7_repeat_selection_identical (fs : FS) (c p bad good b g : String)
    (rest : List String)
    (h : (c, p, bad, good) ∈ exampleTable)
    (hb : fs.read bad = some b) (hg : fs.read good = some g) :
    (mainRun fs (c :: c :: rest)).1 =
      (mainStep fs c).out ++ ((mainStep fs c).out ++ (mainRun fs rest).1) := by
  have hst : (mainStep fs c).status = Status.running := by
    fin_cases h
    · rw [mainStep_dispatch fs "1" "1-srp" "1-srp/bad_srp.py" "1-srp/good_srp.py" (by decide)]
      exact afterLoad_status_of_err_none _ _
        (by rw [load_example_ok fs "1-srp" "srp" b g (by decide) hb hg])
    · rw [mainStep_dispatch fs "2" "2-ocp" "2-ocp/bad_ocp.py" "2-ocp/good_ocp.py" (by decide)]
      exact afterLoad_status_of_err_none _ _
        (by rw [load_example_ok fs "2-ocp" "ocp" b g (by decide) hb hg])
    · rw [mainStep_dispatch fs "3" "3-lsp" "3-lsp/bad_lsp.py" "3-lsp/good_lsp.py" (by decide)]
      exact afterLoad_status_of_err_none _ _
        (by rw [load_example_ok fs "3-lsp" "lsp" b g (by decide) hb hg])
    · rw [mainStep_dispatch fs "4" "4-isp" "4-isp/bad_isp.py" "4-isp/good_isp.py" (by decide)]
      exact afterLoad_status_of_err_none _ _
        (by rw [load_example_ok fs "4-isp" "isp" b g (by decide) hb hg])
    · rw [mainStep_dispatch fs "5" "5-dip" "5-dip/bad_dip.py" "5-dip/good_dip.py" (by decide)]
      exact afterLoad_status_of_err_none _ _
        (by rw [load_example_ok fs "5-dip" "dip" b g (by decide) hb hg])
  rw [mainRun_cons_running fs c (c :: rest) hst, mainRun_cons_running fs c rest hst]

/-- Witness for C7 at the choice 1 on the sample file system. -/
theorem C7_repeat_selection_identical_witness :
    (mainRun fullFS ["1", "1", "6"]).1 =
      (mainStep fullFS "1").out ++
        ((mainStep fullFS "1").out ++ (mainRun fullFS ["6"]).1) :=
  C7_repeat_selection_identical fullFS "1" "1-srp" "1-srp/bad_srp.py" "1-srp/good_srp.py"
    "BAD SRP" "GOOD SRP" ["6"] (by decide) (by decide) (by decide)

/-- Claim C8 as stated is false on the code: display_menu emits eight
fixed lines, not six; besides the five principle options and the exit
option it prints a welcome line and a choose-prompt line. -/
theorem C8_counterexample :
    display_menu.length ≠ 6 ∧ display_menu.length = 8 := by decide

/-- Claim C8 amended: display_menu takes no inputs, always succeeds, has
no effect beyond terminal output (it is a pure constant here), and emits
exactly the eight fixed lines: a welcome line, a choose-prompt line, the
five principle options, and the exit option; every loop iteration starts
by emitting exactly these lines. -/
theorem C8_menu_fixed_lines (fs : FS) (line : String) :
    display_menu =
      [ "Welcome to the SOLID Principles Interactive Demo!"
      , "Please choose a principle to explore:"
      , "1. Single Responsibility Principle (SRP)"
      , "2. Open/Closed Principle (OCP)"
      , "3. Liskov Substitution Principle (LSP)"
      , "4. Interface Segregation Principle (ISP)"
      , "5. Dependency Inversion Principle (DIP)"
      , "6. Exit" ] ∧
    (mainStep fs line).out.take 8 = display_menu := by
  refine ⟨rfl, ?_⟩
  show (dispatch fs (pyStrip line)).out.take 8 = display_menu
  generalize pyStrip line = choice
  unfold dispatch
  by_cases h1 : choice = "1"
  · simp only [h1, if_pos rfl]; rfl
  rw [if_neg h1]
  by_cases h2 : choice = "2"
  · simp only [h2, if_pos rfl]; rfl
  rw [if_neg h2]
  by_cases h3 : choice = "3"
  · simp only [h3, if_pos rfl]; rfl
  rw [if_neg h3]
  by_cases h4 : choice = "4"
  · simp only [h4, if_pos rfl]; rfl
  rw [if_neg h4]
  by_cases h5 : choice = "5"
  · simp only [h5, if_pos rfl]; rfl
  rw [if_neg h5]
  by_cases h6 : choice = "6"
  · simp only [h6, if_pos rfl]; rfl
  rw [if_neg h6]
  rfl

/-- Claim C9: each of the five identifiers `main` passes to
`load_example` contains the separator, so the indexing after the split is
well defined (it yields the short name), and no loop iteration can ever
crash with IndexError. -/
theorem C9_split_well_defined (fs : FS) (line : String) :
    (pySplit "1-srp" '-').get? 1 = some "srp" ∧
    (pySplit "2-ocp" '-').get? 1 = some "ocp" ∧
    (pySplit "3-lsp" '-').get? 1 = some "lsp" ∧
    (pySplit "4-isp" '-').get? 1 = some "isp" ∧
    (pySplit "5-dip" '-').get? 1 = some "dip" ∧
    (mainStep fs line).status ≠ Status.crashed LoadError.indexError := by
  refine ⟨by decide, by decide, by decide, by decide, by decide, ?_⟩
  have hms : mainStep fs line = dispatch fs (pyStrip line) := rfl
  by_cases h1 : pyStrip line = "1"
  · rw [hms, h1]
    exact fun hc => load_example_err_ne_index fs "1-srp" "srp" (by decide)
      ((afterLoad_status_crashed_iff _ _ _).mp hc)
  by_cases h2 : pyStrip line = "2"
  · rw [hms, h2]
    exact fun hc => load_example_err_ne_index fs "2-ocp" "ocp" (by decide)
      ((afterLoad_status_crashed_iff _ _ _).mp hc)
  by_cases h3 : pyStrip line = "3"
  · rw [hms, h3]
    exact fun hc => load_example_err_ne_index fs "3-lsp" "lsp" (by decide)
      ((afterLoad_status_crashed_iff _ _ _).mp hc)
  by_cases h4 : pyStrip line = "4"
  · rw [hms, h4]
    exact fun hc => load_example_err_ne_index fs "4-isp" "isp" (by decide)
      ((afterLoad_status_crashed_iff _ _ _).mp hc)
  by_cases h5 : pyStrip line = "5"
  · rw [hms, h5]
    exact fun hc => load_example_err_ne_index fs "5-dip" "dip" (by decide)
      ((afterLoad_status_crashed_iff _ _ _).mp hc)
  by_cases h6 : pyStrip line = "6"
  · rw [hms, h6]
    intro hc
    exact Status.noConfusion hc
  · rw [mainStep_invalid fs line (by simp [h1, h2, h3, h4, h5, h6])]
    intro hc
    exact Status.noConfusion hc

/-- Claim C10: `load_example` is not atomic with respect to failure: when
the bad example of the selected principle is readable but the good one is
missing, the bad section header and the bad contents (and the good
header) have already been emitted when the FileNotFound error occurs. -/
theorem C10_partial_output_before_failure (fs : FS) (c p bad good b : String)
    (h : (c, p, bad, good) ∈ exampleTable)
    (hb : fs.read bad = some b) (hg : fs.read good = none) :
    load_example fs p =
      ⟨["\n--- Bad Example ---", b, "\n--- Good Example ---"], [bad, good],
       some (.fileNotFound good)⟩ ∧
    (load_example fs p).out.take 2 = ["\n--- Bad Example ---", b] := by
  fin_cases h
  · rw [load_example_fail_good fs "1-srp" "srp" b (by decide) hb hg]
    exact ⟨rfl, rfl⟩
  · rw [load_example_fail_good fs "2-ocp" "ocp" b (by decide) hb hg]
    exact ⟨rfl, rfl⟩
  · rw [load_example_fail_good fs "3-lsp" "lsp" b (by decide) hb hg]
    exact ⟨rfl, rfl⟩
  · rw [load_example_fail_good fs "4-isp" "isp" b (by decide) hb hg]
    exact ⟨rfl, rfl⟩
  · rw [load_example_fail_good fs "5-dip" "dip" b (by decide) hb hg]
    exact ⟨rfl, rfl⟩

/-- Witness for C10 on the deficient sample file system. -/
theorem C10_partial_output_before_failure_witness :
    load_example noGoodFS "1-srp" =
      ⟨["\n--- Bad Example ---", "BAD SRP", "\n--- Good Example ---"],
       ["1-srp/bad_srp.py", "1-srp/good_srp.py"],
       some (.fileNotFound "1-srp/good_srp.py")⟩ ∧
    (load_example noGoodFS "1-srp").out.take 2 =
      ["\n--- Bad Example ---", "BAD SRP"] :=
  C10_partial_output_before_failure noGoodFS "1" "1-srp" "1-srp/bad_srp.py"
    "1-srp/good_srp.py" "BAD SRP" (by decide) (by decide) (by decide)

example : load_example fullFS "1-srp" =
    ⟨["\n--- Bad Example ---", "BAD SRP", "\n--- Good Example ---", "GOOD SRP"],
     ["1-srp/bad_srp.py", "1-srp/good_srp.py"], none⟩ := by decide

example : (mainStep fullFS "6").status = .terminated := by decide

example : mainRun noGoodFS ["1", "6"] =
    (display_menu ++ [promptText, "\n--- Bad Example ---", "BAD SRP",
      "\n--- Good Example ---"],
     .crashed (.fileNotFound "1-srp/good_srp.py")) := by decide

end SolidDemo
